import Mathlib

/-!
Verification of the TCP licensing system against its specification.

The repository contains two implementations of the same license authority:
the standalone `licence.py` (modelled in namespace `LP`) and the Django app
`licenses/utils.py` together with `licenses/views.py` (modelled in
namespaces `DJ` and `Views`).

Modelling conventions:
  * UTC timestamps are `Int` seconds since 1970-01-01 00:00:00 UTC.
    Python's `strftime("%Y-%m-%d %H:%M:%S")` is implemented as `fmtTime`
    via the standard civil-calendar conversion; second precision matches
    the sources (string storage plus `strptime`/`strftime` round-trips in
    `licence.py` are replaced by the timestamp itself, which is faithful
    because `strptime(strftime(t)) = t` at second precision).
  * The `rsa` library is idealised: signing is deterministic, and
    verification succeeds exactly on the signature bytes of the exact
    message (`rsaSignBytes`/`rsaVerifyOk`).  `bytes.fromhex` and
    `bytes.hex()` are modelled exactly (`fromhex`/`hexEncode`).
  * The SQLite table / Django ORM table is an association list from
    `client_id` to the stored row; the `UNIQUE` constraint corresponds to
    the duplicate checks in the operations.
  * Python exceptions that can escape to the caller are modelled with
    `Except PyExn`; functions whose source cannot raise return plain
    values.
-/

namespace Licensing

/-- Zero-pad a natural number to two digits, as strftime does for
month, day, hour, minute and second fields. -/
def pad2 (n : Nat) : String := if n < 10 then "0" ++ toString n else toString n

/-- Zero-pad a natural number to four digits, as strftime's %Y does. -/
def pad4 (n : Nat) : String :=
  if n < 10 then "000" ++ toString n
  else if n < 100 then "00" ++ toString n
  else if n < 1000 then "0" ++ toString n
  else toString n

/-- Convert days since 1970-01-01 to a civil (year, month, day) triple,
using the standard era-based algorithm; models the Gregorian calendar
arithmetic inside Python's `datetime`. -/
def civilFromDays (z0 : Int) : Int × Nat × Nat :=
  let z := z0 + 719468
  let era := z.fdiv 146097
  let doe := (z - era * 146097).toNat
  let yoe := (doe - doe / 1460 + doe / 36524 - doe / 146096) / 365
  let y := era * 400 + (yoe : Int)
  let doy := doe - (365 * yoe + yoe / 4 - yoe / 100)
  let mp := (5 * doy + 2) / 153
  let d := doy - (153 * mp + 2) / 5 + 1
  let m := if mp < 10 then mp + 3 else mp - 9
  (if m ≤ 2 then y + 1 else y, m, d)

/-- strftime("%Y-%m-%d %H:%M:%S") on a UTC timestamp given in seconds
since the epoch. -/
def fmtTime (t : Int) : String :=
  let days := t.fdiv 86400
  let secs := (t - days * 86400).toNat
  let c := civilFromDays days
  pad4 c.1.toNat ++ "-" ++ pad2 c.2.1 ++ "-" ++ pad2 c.2.2 ++ " " ++
    pad2 (secs / 3600) ++ ":" ++ pad2 (secs % 3600 / 60) ++ ":" ++ pad2 (secs % 60)

/-- Lowercase hexadecimal digit for a value below 16, as produced by
Python's `bytes.hex()`. -/
def hexDig (n : Nat) : Char := if n < 10 then Char.ofNat (48 + n) else Char.ofNat (87 + n)

/-- Value of a hexadecimal digit character, if it is one; `bytes.fromhex`
accepts both cases. -/
def hexDigitVal (c : Char) : Option Nat :=
  if 48 ≤ c.toNat ∧ c.toNat ≤ 57 then some (c.toNat - 48)
  else if 97 ≤ c.toNat ∧ c.toNat ≤ 102 then some (c.toNat - 87)
  else if 65 ≤ c.toNat ∧ c.toNat ≤ 70 then some (c.toNat - 55)
  else none

/-- Two lowercase hex digits per byte, as `bytes.hex()` renders. -/
def hexChars : List Nat → List Char
  | [] => []
  | b :: bs => hexDig (b / 16) :: hexDig (b % 16) :: hexChars bs

/-- Python `bytes.hex()`. -/
def hexEncode (bs : List Nat) : String := String.mk (hexChars bs)

/-- Parse pairs of hex digits; `none` models the `ValueError` raised by
`bytes.fromhex` on a malformed string. -/
def fromhexChars : List Char → Option (List Nat)
  | [] => some []
  | [_] => none
  | c1 :: c2 :: rest =>
    match hexDigitVal c1, hexDigitVal c2, fromhexChars rest with
    | some h, some l, some bs => some ((h * 16 + l) :: bs)
    | _, _, _ => none

/-- Python `bytes.fromhex`. -/
def fromhex (s : String) : Option (List Nat) := fromhexChars s.data

/-- Three bytes per character of the message. -/
def charBytes (c : Char) : List Nat :=
  [c.toNat / 65536 % 256, c.toNat / 256 % 256, c.toNat % 256]

def strBytes : List Char → List Nat
  | [] => []
  | c :: cs => charBytes c ++ strBytes cs

/-- Idealisation of `rsa.sign(msg, private_key, "SHA-256")`: a
deterministic byte string depending on the message.  The concrete bytes
stand in for the PKCS#1 v1.5 signature; what matters for the program's
logic is that signing is deterministic and injective on messages. -/
def rsaSignBytes (m : String) : List Nat := strBytes m.data

/-- `rsa.sign(...).hex()`, the wire/storage form used throughout the
sources. -/
def rsaSignHex (m : String) : String := hexEncode (rsaSignBytes m)

/-- Idealisation of `rsa.verify(msg, sig, public_key)`: verification
succeeds exactly on the signature bytes of the exact message (the `rsa`
library raises `VerificationError` otherwise, which the sources catch). -/
def rsaVerifyOk (m : String) (sig : List Nat) : Bool := sig == rsaSignBytes m

/-- JSON string escaping for one character (quote and backslash; the
claims only involve ASCII data, where `json.dumps` does nothing else). -/
def escChar (c : Char) : List Char :=
  if c = '\"' then ['\\', '\"'] else if c = '\\' then ['\\', '\\'] else [c]

def escChars : List Char → List Char
  | [] => []
  | c :: cs => escChar c ++ escChars cs

def jsonEscape (s : String) : String := String.mk (escChars s.data)

/-- A JSON string literal. -/
def jstr (s : String) : String := "\"" ++ jsonEscape s ++ "\""

/-- Lexicographic comparison of character lists by code point, the order
Python string comparison (and hence `sort_keys=True`) uses. -/
def lexLeChars : List Char → List Char → Bool
  | [], _ => true
  | _ :: _, [] => false
  | a :: as, b :: bs =>
    if a.toNat < b.toNat then true
    else if b.toNat < a.toNat then false
    else lexLeChars as bs

/-- Python string `<=`. -/
def strLe (s t : String) : Bool := lexLeChars s.data t.data

/-- Comparison of dictionary entries by key, the order `sort_keys=True`
sorts by. -/
def keyLe (p q : String × String) : Prop := strLe p.1 q.1 = true

instance : DecidableRel keyLe := fun p q => inferInstanceAs (Decidable (strLe p.1 q.1 = true))

instance : IsTotal (String × String) keyLe :=
  ⟨fun a b => by
    show lexLeChars a.1.data b.1.data = true ∨ lexLeChars b.1.data a.1.data = true
    generalize a.1.data = l1
    generalize b.1.data = l2
    induction l1 generalizing l2 with
    | nil => exact Or.inl rfl
    | cons x xs ih =>
      cases l2 with
      | nil => exact Or.inr rfl
      | cons y ys =>
        by_cases hxy : x.toNat < y.toNat
        · exact Or.inl (by simp [lexLeChars, hxy])
        · by_cases hyx : y.toNat < x.toNat
          · exact Or.inr (by simp [lexLeChars, hyx])
          · rcases ih ys with h | h
            · exact Or.inl (by simp [lexLeChars, hxy, hyx, h])
            · exact Or.inr (by simp [lexLeChars, hxy, hyx, h])⟩

instance : IsTrans (String × String) keyLe :=
  ⟨fun a b c h1 h2 => by
    show lexLeChars a.1.data c.1.data = true
    revert h1 h2
    show lexLeChars a.1.data b.1.data = true → lexLeChars b.1.data c.1.data = true →
      lexLeChars a.1.data c.1.data = true
    generalize a.1.data = l1
    generalize b.1.data = l2
    generalize c.1.data = l3
    intro h1 h2
    induction l1 generalizing l2 l3 with
    | nil => rfl
    | cons x xs ih =>
      cases l2 with
      | nil => simp [lexLeChars] at h1
      | cons y ys =>
        cases l3 with
        | nil => simp [lexLeChars] at h2
        | cons z zs =>
          have e1 : x.toNat < y.toNat ∨ (x.toNat = y.toNat ∧ lexLeChars xs ys = true) := by
            by_cases h : x.toNat < y.toNat
            · exact Or.inl h
            · by_cases h' : y.toNat < x.toNat
              · simp [lexLeChars, h, h'] at h1
              · exact Or.inr ⟨by omega, by simpa [lexLeChars, h, h'] using h1⟩
          have e2 : y.toNat < z.toNat ∨ (y.toNat = z.toNat ∧ lexLeChars ys zs = true) := by
            by_cases h : y.toNat < z.toNat
            · exact Or.inl h
            · by_cases h' : z.toNat < y.toNat
              · simp [lexLeChars, h, h'] at h2
              · exact Or.inr ⟨by omega, by simpa [lexLeChars, h, h'] using h2⟩
          rcases e1 with h1' | ⟨hq1, ht1⟩
          · rcases e2 with h2' | ⟨hq2, ht2⟩ <;>
              simp [lexLeChars, show x.toNat < z.toNat by omega]
          · rcases e2 with h2' | ⟨hq2, ht2⟩
            · simp [lexLeChars, show x.toNat < z.toNat by omega]
            · have hxz : ¬ x.toNat < z.toNat := by omega
              have hzx : ¬ z.toNat < x.toNat := by omega
              simpa [lexLeChars, hxz, hzx] using ih ys zs ht1 ht2⟩

/-- Key order strengthened to an antisymmetric relation (strictly smaller
key, or the very same entry); used to show sorting is canonical on
duplicate-free dictionaries. -/
def keyLtEq (p q : String × String) : Prop := (keyLe p q ∧ p.1 ≠ q.1) ∨ p = q

instance : IsAntisymm (String × String) keyLtEq :=
  ⟨fun a b h1 h2 => by
    have hanti : ∀ l1 l2 : List Char,
        lexLeChars l1 l2 = true → lexLeChars l2 l1 = true → l1 = l2 := by
      intro l1
      induction l1 with
      | nil =>
        intro l2 _ g2
        cases l2 with
        | nil => rfl
        | cons y ys => simp [lexLeChars] at g2
      | cons x xs ih =>
        intro l2 g1 g2
        cases l2 with
        | nil => simp [lexLeChars] at g1
        | cons y ys =>
          by_cases hxy : x.toNat < y.toNat
          · simp [lexLeChars, hxy, show ¬ y.toNat < x.toNat by omega] at g2
          · by_cases hyx : y.toNat < x.toNat
            · simp [lexLeChars, hxy, hyx] at g1
            · have hx : x = y :=
                Char.eq_of_val_eq (UInt32.eq_of_toBitVec_eq (BitVec.eq_of_toNat_eq
                  (show x.toNat = y.toNat by omega)))
              have ht : xs = ys :=
                ih ys (by simpa [lexLeChars, hxy, hyx] using g1)
                  (by simpa [lexLeChars, hxy, hyx] using g2)
              rw [hx, ht]
    rcases h1 with ⟨hle1, hne1⟩ | h1
    · rcases h2 with ⟨hle2, _⟩ | h2
      · exact absurd (String.toList_inj.mp (hanti a.1.data b.1.data hle1 hle2)) hne1
      · exact h2.symm
    · exact h1⟩

/-- Python `json.dumps(d)` with the default separators `", "` and `": "`
and no key sorting: entries are rendered in dictionary insertion order.
This is the encoder `licence.py` signs and verifies with. -/
def jsonDumpsPlain (l : List (String × String)) : String :=
  "\x7b" ++ String.intercalate ", " (l.map fun p => jstr p.1 ++ ": " ++ jstr p.2) ++ "\x7d"

/-- Python `json.dumps(d, separators=(',', ':'), sort_keys=True)`: a
key-sorted, whitespace-free rendering.  This is the encoder the Django
implementation signs and verifies with. -/
def jsonDumpsSorted (l : List (String × String)) : String :=
  "\x7b" ++
    String.intercalate ","
      ((List.insertionSort keyLe l).map fun p => jstr p.1 ++ ":" ++ jstr p.2) ++
    "\x7d"

/-- Structured verification outcome dictionary. -/
structure VResult where
  status : String
  message : String
deriving DecidableEq

/-- Python exceptions that can escape from the modelled operations. -/
inductive PyExn where
  | valueError
  | typeError
deriving DecidableEq

/-- Stored license row: the columns of the `licenses` table / the fields
of the Django `License` model, keyed externally by `client_id`.
`exp = none` is the non-expiring sentinel (stored as the text "Never" in
`licence.py` and as SQL NULL in Django). -/
structure LicenseRow where
  license_type : String
  issued_at : Int
  exp : Option Int
  signature : String
  status : String
deriving DecidableEq

/-- The license table. -/
abbrev Store := List (String × LicenseRow)

/-- SELECT ... WHERE client_id = ? (the client_id column is UNIQUE). -/
def find (client : String) : Store → Option LicenseRow
  | [] => none
  | (k, r) :: rest => if k = client then some r else find client rest

/-- UPDATE ... WHERE client_id = ?. -/
def updateRow (client : String) (f : LicenseRow → LicenseRow) (st : Store) : Store :=
  st.map fun p => if p.1 = client then (p.1, f p.2) else p

/-- Whether the first Except constructor is `ok`; `true` means the
modelled Python call returned instead of raising. -/
def exceptOk : Except PyExn VResult → Bool
  | .ok _ => true
  | .error _ => false

/-- Bool-valued invariant: every stored signature is a decodable hex
string (true of every row the program itself stores, since signatures
are produced by `.hex()`). -/
def storeHexOk : Store → Bool
  | [] => true
  | (_, r) :: rest => (fromhex r.signature).isSome && storeHexOk rest

/-- Rendering of the exp field inside the signed payload: the literal
token "Never" for non-expiring licenses, else the formatted timestamp. -/
def expString : Option Int → String
  | none => "Never"
  | some e => fmtTime e

/-- The signable dictionary, in the insertion order used by every
implementation: client_id, license_type, issued_at, exp. -/
def licenseFields (client ltype : String) (issued : Int) (e : Option Int) :
    List (String × String) :=
  [("client_id", client), ("license_type", ltype),
   ("issued_at", fmtTime issued), ("exp", expString e)]

/-- The exact string `licence.py` signs and verifies
(`json.dumps(license_data)` with default separators, insertion order). -/
def lpLicenseJson (client ltype : String) (issued : Int) (e : Option Int) : String :=
  jsonDumpsPlain (licenseFields client ltype issued e)

/-- The exact string the Django implementation signs and verifies
(`json.dumps(license_data, separators=(',', ':'), sort_keys=True)`),
shared by `utils.generate_license`, `utils.verify_license` and
`views.LicenseViewSet.create`. -/
def djLicenseJson (client ltype : String) (issued : Int) (e : Option Int) : String :=
  jsonDumpsSorted (licenseFields client ltype issued e)

/-- Python `utcnow() > expiration` / `now() > license_obj.exp` with the
guard that an absent expiry is never expired. -/
def isExpired (now : Int) : Option Int → Bool
  | none => false
  | some e => decide (e < now)

namespace LP

/-- licence.py `generate_license`: sign the payload, then INSERT; the
UNIQUE constraint turns a duplicate client into an `IntegrityError`,
reported as the error string with the table unchanged. -/
def generate_license (st : Store) (now : Int) (client ltype : String)
    (duration_days : Int) : Store × Except String LicenseRow :=
  let expiration : Option Int :=
    if ltype = "Premium" then none else some (now + duration_days * 86400)
  let sig := rsaSignHex (lpLicenseJson client ltype now expiration)
  match find client st with
  | some _ => (st, Except.error "Error: License for this client already exists!")
  | none =>
    let row : LicenseRow := ⟨ltype, now, expiration, sig, "active"⟩
    (st ++ [(client, row)], Except.ok row)

/-- The signature value `generate_license` stores for these arguments. -/
def issueSig (now : Int) (client ltype : String) (duration_days : Int) : String :=
  rsaSignHex (lpLicenseJson client ltype now
    (if ltype = "Premium" then none else some (now + duration_days * 86400)))

/-- licence.py `revoke_license`: an unconditional UPDATE followed by the
fixed message; a missing client means zero rows updated, but the message
is returned regardless. -/
def revoke_license (st : Store) (client : String) : Store × String :=
  (updateRow client (fun r => { r with status := "revoked" }) st,
   "License for " ++ client ++ " has been revoked.")

/-- Tail of licence.py `validate_license`: the equality check against the
stored signature, then `bytes.fromhex` (whose ValueError is not caught:
the surrounding `try` only catches `rsa.VerificationError`), then
`rsa.verify`. -/
def sigCheck (json stored provided : String) : Except PyExn VResult :=
  if provided ≠ stored then Except.ok ⟨"error", "Signature mismatch."⟩
  else
    match fromhex provided with
    | none => Except.error PyExn.valueError
    | some bs =>
      if rsaVerifyOk json bs then Except.ok ⟨"success", "License is valid."⟩
      else Except.ok ⟨"error", "Invalid signature or license tampered with."⟩

/-- licence.py `validate_license`. -/
def validate_license (st : Store) (now : Int) (client provided : String) :
    Except PyExn VResult :=
  match find client st with
  | none => Except.ok ⟨"error", "License not found."⟩
  | some r =>
    if r.status = "revoked" then Except.ok ⟨"error", "License is revoked."⟩
    else if r.license_type ≠ "Premium" ∧ isExpired now r.exp then
      Except.ok ⟨"error", "License has expired."⟩
    else sigCheck (lpLicenseJson client r.license_type r.issued_at r.exp) r.signature provided

/-- licence.py `reactivate_license`: NotFound, Premium and "Never" guards,
then extend the stored expiry and set the status back to active. -/
def reactivate_license (st : Store) (client : String) (additional_days : Int) :
    Store × String :=
  match find client st with
  | none => (st, "Error: License not found.")
  | some r =>
    if r.license_type = "Premium" then (st, "Premium licenses do not expire.")
    else
      match r.exp with
      | none => (st, "This license does not have an expiration date.")
      | some e =>
        let newExp := e + additional_days * 86400
        (updateRow client (fun r0 => { r0 with exp := some newExp, status := "active" }) st,
         "License for " ++ client ++ " reactivated until " ++ fmtTime newExp ++ ".")

end LP

namespace DJ

/-- utils.py `generate_license`: expiry from the explicit `exp` argument
if given, else from `duration_days` if given, else absent; sign the
sorted compact payload; `update_or_create` stores the row, overwriting
any existing record for the client. -/
def generate_license (st : Store) (now : Int) (client ltype : String)
    (exp : Option Int) (duration_days : Option Int) : Store × LicenseRow :=
  let expiration : Option Int :=
    match exp with
    | some e => some e
    | none =>
      match duration_days with
      | some d => some (now + d * 86400)
      | none => none
  let row : LicenseRow :=
    ⟨ltype, now, expiration, rsaSignHex (djLicenseJson client ltype now expiration), "active"⟩
  match find client st with
  | some _ => (updateRow client (fun _ => row) st, row)
  | none => (st ++ [(client, row)], row)

/-- Tail of utils.py `verify_license`: `bytes.fromhex` then `rsa.verify`.
The whole body sits in `try: ... except Exception`, so a malformed hex
signature becomes the structured "License verification failed: ..."
result instead of an exception (the interpolated `str(e)` text is
abstracted to a fixed message). -/
def djSigCheck (json provided : String) : VResult :=
  match fromhex provided with
  | none => ⟨"error", "License verification failed: non-hexadecimal digit found"⟩
  | some bs =>
    if rsaVerifyOk json bs then ⟨"success", "License is valid."⟩
    else ⟨"error", "Invalid signature or license tampered with."⟩

/-- utils.py `verify_license`. -/
def verify_license (st : Store) (now : Int) (client provided : String) : VResult :=
  match find client st with
  | none => ⟨"error", "License not found."⟩
  | some r =>
    if r.status = "revoked" then ⟨"error", "License is revoked."⟩
    else if r.license_type ≠ "Premium" ∧ isExpired now r.exp then
      ⟨"error", "License has expired."⟩
    else djSigCheck (djLicenseJson client r.license_type r.issued_at r.exp) provided

/-- utils.py `revoke_license`: NotFound error for a missing client, else
set the status to revoked. -/
def revoke_license (st : Store) (client : String) : Store × VResult :=
  match find client st with
  | none => (st, ⟨"error", "License not found."⟩)
  | some _ =>
    (updateRow client (fun r => { r with status := "revoked" }) st,
     ⟨"success", "License for " ++ client ++ " has been revoked."⟩)

/-- utils.py `reactivate_license`.  In the source, `license_obj.exp` is a
Django DateTimeField value (a datetime, or None), so the guard
`license_obj.exp == "Never"` compares it with a string and is always
False, and `datetime.strptime(license_obj.exp, "%Y-%m-%d %H:%M:%S")`
then raises TypeError because its first argument is not a string: every
non-Premium record reaches an uncaught TypeError. -/
def reactivate_license (st : Store) (client : String) (additional_days : Int) :
    Store × Except PyExn VResult :=
  match find client st with
  | none => (st, Except.ok ⟨"error", "License not found."⟩)
  | some r =>
    if r.license_type = "Premium" then
      (st, Except.ok ⟨"error", "Premium licenses do not expire."⟩)
    else (st, Except.error PyExn.typeError)

end DJ

namespace Views

/-- views.py `LicenseViewSet.create`: expiry from the explicit `exp`
request field, else from `duration_days` when that is truthy as a Python
value (so a duration of 0 is treated as absent), then an explicit
existence check that rejects duplicates with HTTP 409 before anything is
stored, then sign the sorted compact payload and create the row. -/
def create (st : Store) (now : Int) (client ltype : String)
    (exp : Option Int) (duration_days : Option Int) : Store × Except String LicenseRow :=
  let expiration : Option Int :=
    match exp with
    | some e => some e
    | none =>
      match duration_days with
      | some d => if d ≠ 0 then some (now + d * 86400) else none
      | none => none
  match find client st with
  | some _ => (st, Except.error "License for this client already exists.")
  | none =>
    let row : LicenseRow :=
      ⟨ltype, now, expiration, rsaSignHex (djLicenseJson client ltype now expiration), "active"⟩
    (st ++ [(client, row)], Except.ok row)

end Views

end Licensing

namespace Licensing

/-! ### Helper lemmas about the store -/

theorem find_mem (st : Store) (c : String) (r : LicenseRow) (hf : find c st = some r) :
    (c, r) ∈ st := by
  induction st with
  | nil => simp [find] at hf
  | cons p rest ih =>
    obtain ⟨k, row⟩ := p
    by_cases hk : k = c
    · simp only [find, hk, if_pos] at hf
      simp [hk, ← Option.some_inj.mp hf]
    · simp only [find, hk, if_neg, if_false] at hf
      exact List.mem_cons_of_mem _ (ih hf)

theorem find_append (st : Store) (c : String) (row : LicenseRow) (h : find c st = none) :
    find c (st ++ [(c, row)]) = some row := by
  induction st with
  | nil => simp [find]
  | cons p rest ih =>
    obtain ⟨k, r⟩ := p
    by_cases hk : k = c
    · simp [find, hk] at h
    · simp only [List.cons_append, find, hk, if_false] at h ⊢
      exact ih h

theorem find_updateRow (st : Store) (c : String) (f : LicenseRow → LicenseRow) :
    find c (updateRow c f st) = (find c st).map f := by
  induction st with
  | nil => rfl
  | cons p rest ih =>
    obtain ⟨k, r⟩ := p
    by_cases hk : k = c
    · subst hk
      have h1 : updateRow k f ((k, r) :: rest) = (k, f r) :: updateRow k f rest := by
        simp [updateRow]
      rw [h1]
      show (if k = k then some (f r) else find k (updateRow k f rest))
          = Option.map f (if k = k then some r else find k rest)
      rw [if_pos rfl, if_pos rfl]
      rfl
    · have h1 : updateRow c f ((k, r) :: rest) = (k, r) :: updateRow c f rest := by
        simp [updateRow, hk]
      rw [h1]
      show (if k = c then some r else find c (updateRow c f rest))
          = Option.map f (if k = c then some r else find c rest)
      rw [if_neg hk, if_neg hk]
      exact ih

theorem storeHexOk_find (st : Store) (c : String) (r : LicenseRow)
    (hok : storeHexOk st = true) (hf : find c st = some r) :
    (fromhex r.signature).isSome = true := by
  induction st with
  | nil => simp [find] at hf
  | cons p rest ih =>
    obtain ⟨k, row⟩ := p
    simp only [storeHexOk, Bool.and_eq_true] at hok
    by_cases hk : k = c
    · simp only [find, hk, if_pos] at hf
      rw [← Option.some_inj.mp hf]
      exact hok.1
    · simp only [find, hk, if_neg, if_false] at hf
      exact ih hok.2 hf

/-! ### Helper lemmas about hex encoding and the idealised signatures -/

theorem hexDigitVal_hexDig : ∀ n : Nat, n < 16 → hexDigitVal (hexDig n) = some n := by
  decide

theorem fromhexChars_hexChars (bs : List Nat) (h : ∀ b ∈ bs, b < 256) :
    fromhexChars (hexChars bs) = some bs := by
  induction bs with
  | nil => rfl
  | cons b rest ih =>
    have hb : b < 256 := h b (by simp)
    have hd1 : hexDigitVal (hexDig (b / 16)) = some (b / 16) :=
      hexDigitVal_hexDig _ (by omega)
    have hd2 : hexDigitVal (hexDig (b % 16)) = some (b % 16) :=
      hexDigitVal_hexDig _ (by omega)
    have hrest : fromhexChars (hexChars rest) = some rest :=
      ih (fun x hx => h x (by simp [hx]))
    simp only [hexChars, fromhexChars, hd1, hd2, hrest]
    have : b / 16 * 16 + b % 16 = b := by omega
    rw [this]

theorem strBytes_lt (l : List Char) : ∀ b ∈ strBytes l, b < 256 := by
  induction l with
  | nil =>
    intro b hb
    simp [strBytes] at hb
  | cons c cs ih =>
    intro b hb
    simp only [strBytes, List.mem_append] at hb
    rcases hb with h | h
    · simp only [charBytes, List.mem_cons, List.not_mem_nil, or_false] at h
      rcases h with h | h | h <;> subst h <;> omega
    · exact ih b h

theorem fromhex_rsaSignHex (m : String) : fromhex (rsaSignHex m) = some (rsaSignBytes m) := by
  show fromhexChars (hexChars (rsaSignBytes m)) = some (rsaSignBytes m)
  exact fromhexChars_hexChars _ (strBytes_lt m.data)

theorem sigCheck_self (j : String) :
    LP.sigCheck j (rsaSignHex j) (rsaSignHex j) = Except.ok ⟨"success", "License is valid."⟩ := by
  unfold LP.sigCheck
  simp [fromhex_rsaSignHex, rsaVerifyOk]

theorem djSigCheck_self (j : String) :
    DJ.djSigCheck j (rsaSignHex j) = ⟨"success", "License is valid."⟩ := by
  unfold DJ.djSigCheck
  simp [fromhex_rsaSignHex, rsaVerifyOk]

theorem sigCheck_ne_expired (j s p : String) :
    LP.sigCheck j s p ≠ Except.ok ⟨"error", "License has expired."⟩ := by
  unfold LP.sigCheck
  split
  · simp
  · split
    · simp
    · split <;> simp

theorem djSigCheck_ne_expired (j p : String) :
    DJ.djSigCheck j p ≠ ⟨"error", "License has expired."⟩ := by
  unfold DJ.djSigCheck
  split
  · simp
  · split <;> simp

theorem char_toNat_lt (c : Char) : c.toNat < 1114112 := by
  rcases c.valid with h | ⟨h1, h2⟩
  · exact lt_trans h (by norm_num)
  · exact h2

theorem strBytes_inj : ∀ l1 l2 : List Char, strBytes l1 = strBytes l2 → l1 = l2
  | [], [], _ => rfl
  | [], _ :: _, h => by simp [strBytes, charBytes] at h
  | _ :: _, [], h => by simp [strBytes, charBytes] at h
  | c1 :: cs1, c2 :: cs2, h => by
    have hlt1 := char_toNat_lt c1
    have hlt2 := char_toNat_lt c2
    simp only [strBytes, charBytes, List.cons_append, List.nil_append, List.cons.injEq] at h
    obtain ⟨h0, h1, h2, h3⟩ := h
    have hn : c1.toNat = c2.toNat := by omega
    have hc : c1 = c2 :=
      Char.eq_of_val_eq (UInt32.eq_of_toBitVec_eq (BitVec.eq_of_toNat_eq hn))
    rw [hc, strBytes_inj cs1 cs2 h3]

/-- The idealised signing function is injective on messages, as a real
signature scheme's deterministic signing is collision-free in the model. -/
theorem rsaSignBytes_inj (m1 m2 : String) (h : rsaSignBytes m1 = rsaSignBytes m2) :
    m1 = m2 :=
  String.toList_inj.mp (strBytes_inj m1.data m2.data h)

/-- Characterisation of licence.py's signature-checking stage when the
caller supplies exactly the stored signature and the stored signature
was issued over the payload `j`: verification succeeds precisely when
the re-encoded payload `j'` coincides with the signed payload `j`, and
otherwise reports the tampering error. -/
theorem sigCheck_orig (j' j : String) :
    LP.sigCheck j' (rsaSignHex j) (rsaSignHex j)
      = if j' = j then Except.ok ⟨"success", "License is valid."⟩
        else Except.ok ⟨"error", "Invalid signature or license tampered with."⟩ := by
  unfold LP.sigCheck
  rw [if_neg (by simp), fromhex_rsaSignHex]
  by_cases h : j' = j
  · subst h
    simp [rsaVerifyOk]
  · have hne : rsaSignBytes j ≠ rsaSignBytes j' := fun hcon => h (rsaSignBytes_inj _ _ hcon).symm
    simp [rsaVerifyOk, hne, h]

end Licensing

namespace Licensing

theorem insertionSort_eq_of_perm (l₁ l₂ : List (String × String))
    (hperm : l₁.Perm l₂) (hnd : l₁.Pairwise fun p q => p.1 ≠ q.1) :
    List.insertionSort keyLe l₁ = List.insertionSort keyLe l₂ := by
  have hp1 := List.perm_insertionSort keyLe l₁
  have hp2 := List.perm_insertionSort keyLe l₂
  have hs1 := List.sorted_insertionSort keyLe l₁
  have hs2 := List.sorted_insertionSort keyLe l₂
  have hnd1 : (List.insertionSort keyLe l₁).Pairwise (fun p q => p.1 ≠ q.1) :=
    (hp1.pairwise_iff fun h => Ne.symm h).mpr hnd
  have hnd2 : (List.insertionSort keyLe l₂).Pairwise (fun p q => p.1 ≠ q.1) :=
    (hp2.pairwise_iff fun h => Ne.symm h).mpr ((hperm.pairwise_iff fun h => Ne.symm h).mp hnd)
  have hs1' : (List.insertionSort keyLe l₁).Sorted keyLtEq := by
    have := List.Pairwise.and hs1 hnd1
    exact this.imp fun h => Or.inl h
  have hs2' : (List.insertionSort keyLe l₂).Sorted keyLtEq := by
    have := List.Pairwise.and hs2 hnd2
    exact this.imp fun h => Or.inl h
  exact List.eq_of_perm_of_sorted (hp1.trans (hperm.trans hp2.symm)) hs1' hs2'

/-- When the stored record is neither revoked nor expired, licence.py's
validation reduces to its final signature-checking stage. -/
theorem validate_eq_sigCheck (st : Store) (now : Int) (client sig : String) (r : LicenseRow)
    (hfind : find client st = some r) (hstat : ¬ r.status = "revoked")
    (hexp : ¬ (r.license_type ≠ "Premium" ∧ isExpired now r.exp)) :
    LP.validate_license st now client sig
      = LP.sigCheck (lpLicenseJson client r.license_type r.issued_at r.exp) r.signature sig := by
  unfold LP.validate_license
  rw [hfind]
  show (if r.status = "revoked" then _ else if _ then _ else _) = _
  rw [if_neg hstat, if_neg hexp]

/-- When the stored record is neither revoked nor expired, the Django
verification reduces to its final signature-checking stage. -/
theorem verify_eq_sigCheck (st : Store) (now : Int) (client sig : String) (r : LicenseRow)
    (hfind : find client st = some r) (hstat : ¬ r.status = "revoked")
    (hexp : ¬ (r.license_type ≠ "Premium" ∧ isExpired now r.exp)) :
    DJ.verify_license st now client sig
      = DJ.djSigCheck (djLicenseJson client r.license_type r.issued_at r.exp) sig := by
  unfold DJ.verify_license
  rw [hfind]
  show (if r.status = "revoked" then _ else if _ then _ else _) = _
  rw [if_neg hstat, if_neg hexp]

end Licensing

namespace Licensing

/-- C1 (amended): for a fresh client and a NONNEGATIVE duration,
verifying immediately after issuance with the signature stored at
issuance succeeds, in both the licence.py implementation and the Django
implementation (the original claim quantified over every duration, which
fails for negative durations: the license is then already expired at
issuance, see the counterexample). -/
theorem C1_roundtrip (st : Store) (now : Int) (client ltype : String) (d : Int)
    (habs : find client st = none) (hd : 0 ≤ d) :
    LP.validate_license (LP.generate_license st now client ltype d).1 now client
      (LP.issueSig now client ltype d) = Except.ok ⟨"success", "License is valid."⟩ ∧
    DJ.verify_license (DJ.generate_license st now client ltype none (some d)).1 now client
      (DJ.generate_license st now client ltype none (some d)).2.signature
      = ⟨"success", "License is valid."⟩ := by
  have hnonneg : (0 : Int) ≤ d * 86400 := mul_nonneg hd (by norm_num)
  have hnotlt : ¬ (now + d * 86400 < now) := by omega
  constructor
  · set expiration : Option Int :=
      if ltype = "Premium" then none else some (now + d * 86400) with hexp
    have hgen : (LP.generate_license st now client ltype d).1
        = st ++ [(client, ⟨ltype, now, expiration, LP.issueSig now client ltype d, "active"⟩)] := by
      unfold LP.generate_license LP.issueSig
      rw [habs]
    rw [hgen]
    have hfind := find_append st client
      ⟨ltype, now, expiration, LP.issueSig now client ltype d, "active"⟩ habs
    have hnexp : ¬ ((⟨ltype, now, expiration, LP.issueSig now client ltype d, "active"⟩ :
        LicenseRow).license_type ≠ "Premium" ∧
        isExpired now (⟨ltype, now, expiration, LP.issueSig now client ltype d, "active"⟩ :
          LicenseRow).exp) := by
      show ¬ (ltype ≠ "Premium" ∧ isExpired now expiration)
      by_cases hp : ltype = "Premium"
      · simp [hp]
      · simp only [hexp, if_neg hp]
        simp [isExpired, hp, hnotlt]
    rw [validate_eq_sigCheck _ _ _ _ _ hfind (by simp) hnexp]
    show LP.sigCheck (lpLicenseJson client ltype now expiration)
      (LP.issueSig now client ltype d) (LP.issueSig now client ltype d) = _
    exact sigCheck_self _
  · set expiration : Option Int := some (now + d * 86400) with hexp
    have hgen : DJ.generate_license st now client ltype none (some d)
        = (st ++ [(client, ⟨ltype, now, expiration,
            rsaSignHex (djLicenseJson client ltype now expiration), "active"⟩)],
           ⟨ltype, now, expiration, rsaSignHex (djLicenseJson client ltype now expiration),
            "active"⟩) := by
      unfold DJ.generate_license
      rw [habs]
    rw [hgen]
    have hfind := find_append st client
      ⟨ltype, now, expiration, rsaSignHex (djLicenseJson client ltype now expiration),
        "active"⟩ habs
    have hnexp : ¬ ((⟨ltype, now, expiration,
        rsaSignHex (djLicenseJson client ltype now expiration), "active"⟩ :
          LicenseRow).license_type ≠ "Premium" ∧
        isExpired now (⟨ltype, now, expiration,
          rsaSignHex (djLicenseJson client ltype now expiration), "active"⟩ :
            LicenseRow).exp) := by
      show ¬ (ltype ≠ "Premium" ∧ isExpired now expiration)
      simp [hexp, isExpired, hnotlt]
    rw [verify_eq_sigCheck _ _ _ _ _ hfind (by simp) hnexp]
    exact djSigCheck_self _

/-- C1 witness: the round-trip theorem instantiated at a concrete fresh
store, client and 30-day duration. -/
theorem C1_witness :
    find "acme" ([] : Store) = none ∧ (0 : Int) ≤ 30 ∧
    LP.validate_license (LP.generate_license [] 0 "acme" "Pro" 30).1 0 "acme"
      (LP.issueSig 0 "acme" "Pro" 30) = Except.ok ⟨"success", "License is valid."⟩ :=
  ⟨rfl, by norm_num, (C1_roundtrip [] 0 "acme" "Pro" 30 rfl (by norm_num)).1⟩

set_option maxRecDepth 200000 in
/-- C1 counterexample: with duration −1 the issued license is already
expired at issuance time, so Verify immediately after Issue reports
"License has expired." rather than success, refuting the claim as stated
(which quantifies over every duration). -/
theorem C1_counterexample :
    LP.validate_license (LP.generate_license [] 0 "acme" "Pro" (-1)).1 0 "acme"
      (LP.issueSig 0 "acme" "Pro" (-1)) = Except.ok ⟨"error", "License has expired."⟩ ∧
    LP.validate_license (LP.generate_license [] 0 "acme" "Pro" (-1)).1 0 "acme"
      (LP.issueSig 0 "acme" "Pro" (-1)) ≠ Except.ok ⟨"success", "License is valid."⟩ := by
  have h : LP.validate_license (LP.generate_license [] 0 "acme" "Pro" (-1)).1 0 "acme"
      (LP.issueSig 0 "acme" "Pro" (-1)) = Except.ok ⟨"error", "License has expired."⟩ := by rfl
  exact ⟨h, by rw [h]; simp⟩

set_option maxRecDepth 200000 in
/-- C2 (amended): reactivating a stored non-Premium license with an
expiration date sets its status to active and extends the stored expiry
by extra_days, reporting the new expiry and leaving the stored signature
unchanged; a subsequent Verify with the originally issued signature then
returns the expired error when the extended expiry still lies in the
past, success exactly when the re-encoded signing payload equals the
originally signed payload (as happens with extra_days = 0), and
otherwise — whenever the extension changed the encoded expiry — the
invalid-signature outcome, rather than the unconditional success the
claim states, because the signature covers the expires_at field that
reactivation changed. -/
theorem C2_reactivate (st : Store) (now : Int) (client : String) (days : Int)
    (r : LicenseRow) (e : Int)
    (hfind : find client st = some r) (hp : ¬ r.license_type = "Premium")
    (he : r.exp = some e)
    (hsig : r.signature
      = rsaSignHex (lpLicenseJson client r.license_type r.issued_at (some e))) :
    find client (LP.reactivate_license st client days).1
      = some { r with exp := some (e + days * 86400), status := "active" } ∧
    (LP.reactivate_license st client days).2
      = "License for " ++ client ++ " reactivated until " ++ fmtTime (e + days * 86400) ++ "." ∧
    LP.validate_license (LP.reactivate_license st client days).1 now client r.signature
      = (if e + days * 86400 < now then Except.ok ⟨"error", "License has expired."⟩
         else if lpLicenseJson client r.license_type r.issued_at (some (e + days * 86400))
             = lpLicenseJson client r.license_type r.issued_at (some e) then
           Except.ok ⟨"success", "License is valid."⟩
         else Except.ok ⟨"error", "Invalid signature or license tampered with."⟩) := by
  have hre : LP.reactivate_license st client days
      = (updateRow client
          (fun r0 => { r0 with exp := some (e + days * 86400), status := "active" }) st,
         "License for " ++ client ++ " reactivated until " ++ fmtTime (e + days * 86400) ++ ".") := by
    unfold LP.reactivate_license
    rw [hfind]
    show (if r.license_type = "Premium" then _ else _) = _
    rw [if_neg hp, he]
  have hre1 : (LP.reactivate_license st client days).1
      = updateRow client
          (fun r0 => { r0 with exp := some (e + days * 86400), status := "active" }) st := by
    rw [hre]
  have hre2 : (LP.reactivate_license st client days).2
      = "License for " ++ client ++ " reactivated until " ++ fmtTime (e + days * 86400) ++ "." := by
    rw [hre]
  have hfind' : find client (LP.reactivate_license st client days).1
      = some { r with exp := some (e + days * 86400), status := "active" } := by
    rw [hre1, find_updateRow, hfind]
    rfl
  have hstat : ¬ ({ r with exp := some (e + days * 86400), status := "active" } :
      LicenseRow).status = "revoked" := by simp
  refine ⟨hfind', hre2, ?_⟩
  by_cases hnow : e + days * 86400 < now
  · rw [if_pos hnow]
    unfold LP.validate_license
    rw [hfind']
    show (if ({ r with exp := some (e + days * 86400), status := "active" } :
        LicenseRow).status = "revoked" then _ else _) = _
    rw [if_neg hstat]
    have hcond : ({ r with exp := some (e + days * 86400), status := "active" } :
        LicenseRow).license_type ≠ "Premium" ∧
        isExpired now ({ r with exp := some (e + days * 86400), status := "active" } :
          LicenseRow).exp := by
      refine ⟨hp, ?_⟩
      show isExpired now (some (e + days * 86400)) = true
      simp [isExpired, hnow]
    rw [if_pos hcond]
  · rw [if_neg hnow]
    have hnexp : ¬ (({ r with exp := some (e + days * 86400), status := "active" } :
        LicenseRow).license_type ≠ "Premium" ∧
        isExpired now ({ r with exp := some (e + days * 86400), status := "active" } :
          LicenseRow).exp) := by
      intro hcon
      have hx : isExpired now (some (e + days * 86400)) = true := hcon.2
      simp [isExpired, hnow] at hx
    rw [validate_eq_sigCheck _ _ _ _ _ hfind' hstat hnexp]
    show LP.sigCheck
      (lpLicenseJson client r.license_type r.issued_at (some (e + days * 86400)))
      r.signature r.signature = _
    rw [hsig]
    exact sigCheck_orig _ _

set_option maxRecDepth 400000 in
/-- C2 witness: the reactivation theorem instantiated at a concrete
stored Pro license, carrying its genuinely issued signature, with a
one-day expiry extended by ten days; the extension changes the encoded
expiry, so the original signature fails verification with the
tampering error. -/
theorem C2_witness :
    find "acme" [("acme", (⟨"Pro", 0, some 86400,
        rsaSignHex (lpLicenseJson "acme" "Pro" 0 (some 86400)), "active"⟩ : LicenseRow))]
      = some ⟨"Pro", 0, some 86400,
          rsaSignHex (lpLicenseJson "acme" "Pro" 0 (some 86400)), "active"⟩ ∧
    ¬ (⟨"Pro", 0, some 86400, rsaSignHex (lpLicenseJson "acme" "Pro" 0 (some 86400)),
        "active"⟩ : LicenseRow).license_type = "Premium" ∧
    find "acme" (LP.reactivate_license [("acme", ⟨"Pro", 0, some 86400,
        rsaSignHex (lpLicenseJson "acme" "Pro" 0 (some 86400)), "active"⟩)] "acme" 10).1
      = some ⟨"Pro", 0, some (86400 + 10 * 86400),
          rsaSignHex (lpLicenseJson "acme" "Pro" 0 (some 86400)), "active"⟩ ∧
    LP.validate_license (LP.reactivate_license [("acme", ⟨"Pro", 0, some 86400,
        rsaSignHex (lpLicenseJson "acme" "Pro" 0 (some 86400)), "active"⟩)] "acme" 10).1
      0 "acme" (rsaSignHex (lpLicenseJson "acme" "Pro" 0 (some 86400)))
      = Except.ok ⟨"error", "Invalid signature or license tampered with."⟩ :=
  ⟨rfl, by simp,
   (C2_reactivate [("acme", ⟨"Pro", 0, some 86400,
       rsaSignHex (lpLicenseJson "acme" "Pro" 0 (some 86400)), "active"⟩)] 0 "acme" 10
     ⟨"Pro", 0, some 86400, rsaSignHex (lpLicenseJson "acme" "Pro" 0 (some 86400)),
       "active"⟩ 86400 rfl (by simp) rfl rfl).1,
   ((C2_reactivate [("acme", ⟨"Pro", 0, some 86400,
       rsaSignHex (lpLicenseJson "acme" "Pro" 0 (some 86400)), "active"⟩)] 0 "acme" 10
     ⟨"Pro", 0, some 86400, rsaSignHex (lpLicenseJson "acme" "Pro" 0 (some 86400)),
       "active"⟩ 86400 rfl (by simp) rfl rfl).2.2).trans (by rfl)⟩

set_option maxRecDepth 200000 in
/-- C2 counterexample: issue a 30-day Pro license at time 0, reactivate
it by 10 days, then verify with the originally issued signature: the
result is the invalid-signature outcome, not success, refuting the
claim's final conjunct. -/
theorem C2_counterexample :
    (LP.reactivate_license (LP.generate_license [] 0 "acme" "Pro" 30).1 "acme" 10).2
      = "License for acme reactivated until 1970-02-10 00:00:00." ∧
    LP.validate_license
      (LP.reactivate_license (LP.generate_license [] 0 "acme" "Pro" 30).1 "acme" 10).1 0 "acme"
      (LP.issueSig 0 "acme" "Pro" 30)
      ≠ Except.ok ⟨"success", "License is valid."⟩ := by
  have h : LP.validate_license
      (LP.reactivate_license (LP.generate_license [] 0 "acme" "Pro" 30).1 "acme" 10).1 0 "acme"
      (LP.issueSig 0 "acme" "Pro" 30)
      = Except.ok ⟨"error", "Invalid signature or license tampered with."⟩ := by rfl
  exact ⟨by rfl, by rw [h]; simp⟩

/-- C3 (amended): when a record already exists for the client, a second
Issue through licence.py's generate_license or through the API create
endpoint fails with the duplicate-client error and leaves the whole
store — in particular the first record — unchanged; the Django helper
utils.generate_license instead overwrites the record (see the
counterexample). -/
theorem C3_duplicate (st : Store) (now : Int) (client ltype : String) (d : Int)
    (e dd : Option Int) (r : LicenseRow) (hfind : find client st = some r) :
    LP.generate_license st now client ltype d
      = (st, Except.error "Error: License for this client already exists!") ∧
    Views.create st now client ltype e dd
      = (st, Except.error "License for this client already exists.") := by
  constructor
  · unfold LP.generate_license
    rw [hfind]
  · unfold Views.create
    rw [hfind]

/-- C3 witness: the duplicate-issue theorem instantiated at a concrete
one-record store. -/
theorem C3_witness :
    find "acme" [("acme", (⟨"Pro", 0, some 86400, "s", "active"⟩ : LicenseRow))]
      = some ⟨"Pro", 0, some 86400, "s", "active"⟩ ∧
    LP.generate_license [("acme", ⟨"Pro", 0, some 86400, "s", "active"⟩)] 0 "acme" "Basic" 5
      = ([("acme", ⟨"Pro", 0, some 86400, "s", "active"⟩)],
         Except.error "Error: License for this client already exists!") :=
  ⟨rfl, (C3_duplicate [("acme", ⟨"Pro", 0, some 86400, "s", "active"⟩)] 0 "acme" "Basic" 5
    none none ⟨"Pro", 0, some 86400, "s", "active"⟩ rfl).1⟩

set_option maxRecDepth 200000 in
/-- C3 counterexample: utils.generate_license called twice for the same
client does not fail — update_or_create silently replaces the stored
record (license_type changes from Pro to Basic), refuting the claim for
that cited implementation. -/
theorem C3_counterexample :
    find "acme" (DJ.generate_license [] 0 "acme" "Pro" none (some 30)).1
      = some ⟨"Pro", 0, some 2592000,
          rsaSignHex (djLicenseJson "acme" "Pro" 0 (some 2592000)), "active"⟩ ∧
    find "acme" (DJ.generate_license (DJ.generate_license [] 0 "acme" "Pro" none (some 30)).1
        0 "acme" "Basic" none (some 5)).1
      = some ⟨"Basic", 0, some 432000,
          rsaSignHex (djLicenseJson "acme" "Basic" 0 (some 432000)), "active"⟩ ∧
    ("Basic" : String) ≠ "Pro" := by
  exact ⟨by rfl, by rfl, by simp⟩

end Licensing

namespace Licensing

/-- C4 (confirmed): over any store whose stored signatures are decodable
hex (true of every record the program itself stores), licence.py's
validation never lets an exception escape — despite catching only
rsa.VerificationError, undecodable caller input is intercepted by the
stored-signature equality check first — and the Django verification
turns an undecodable caller-supplied signature into a structured
error-status result; moreover, for a found, unrevoked, unexpired record,
every failure mode collapses to a structured invalid outcome: a caller
signature differing from the stored one (the cryptographic-mismatch and
malformed-encoding cases in licence.py) yields the signature-mismatch
error, a stored-equal signature whose bytes do not verify the re-encoded
payload yields the tampering error, and in the Django implementation
decodable signature bytes that do not verify the payload yield the
tampering error as well. -/
theorem C4_no_raise (st : Store) (now : Int) (client sig : String) (r : LicenseRow)
    (bs : List Nat) (hwf : storeHexOk st = true) :
    exceptOk (LP.validate_license st now client sig) = true ∧
    (fromhex sig = none → (DJ.verify_license st now client sig).status = "error") ∧
    (find client st = some r → ¬ r.status = "revoked" →
      ¬ (r.license_type ≠ "Premium" ∧ isExpired now r.exp) →
      (¬ sig = r.signature →
        LP.validate_license st now client sig
          = Except.ok ⟨"error", "Signature mismatch."⟩) ∧
      (fromhex sig = none →
        LP.validate_license st now client sig
          = Except.ok ⟨"error", "Signature mismatch."⟩) ∧
      (sig = r.signature → fromhex sig = some bs →
        rsaVerifyOk (lpLicenseJson client r.license_type r.issued_at r.exp) bs = false →
        LP.validate_license st now client sig
          = Except.ok ⟨"error", "Invalid signature or license tampered with."⟩) ∧
      (fromhex sig = some bs →
        rsaVerifyOk (djLicenseJson client r.license_type r.issued_at r.exp) bs = false →
        DJ.verify_license st now client sig
          = ⟨"error", "Invalid signature or license tampered with."⟩)) := by
  refine ⟨?_, ?_, ?_⟩
  · unfold LP.validate_license
    cases hfind : find client st with
    | none => rfl
    | some r =>
      show exceptOk (if r.status = "revoked" then _ else _) = true
      by_cases h1 : r.status = "revoked"
      · rw [if_pos h1]
        rfl
      · rw [if_neg h1]
        by_cases h2 : r.license_type ≠ "Premium" ∧ isExpired now r.exp
        · rw [if_pos h2]
          rfl
        · rw [if_neg h2]
          unfold LP.sigCheck
          by_cases h3 : sig ≠ r.signature
          · rw [if_pos h3]
            rfl
          · rw [if_neg h3]
            push_neg at h3
            have hs := storeHexOk_find st client r hwf hfind
            cases hfx : fromhex sig with
            | none =>
              rw [h3] at hfx
              rw [hfx] at hs
              simp at hs
            | some bs =>
              show exceptOk (if rsaVerifyOk _ bs then _ else _) = true
              split <;> rfl
  · intro hnone
    unfold DJ.verify_license
    cases hfind : find client st with
    | none => rfl
    | some r =>
      show (if r.status = "revoked" then (⟨"error", "License is revoked."⟩ : VResult)
        else if r.license_type ≠ "Premium" ∧ isExpired now r.exp then
          ⟨"error", "License has expired."⟩
        else DJ.djSigCheck (djLicenseJson client r.license_type r.issued_at r.exp) sig).status
          = "error"
      by_cases h1 : r.status = "revoked"
      · rw [if_pos h1]
      · rw [if_neg h1]
        by_cases h2 : r.license_type ≠ "Premium" ∧ isExpired now r.exp
        · rw [if_pos h2]
        · rw [if_neg h2]
          unfold DJ.djSigCheck
          rw [hnone]
  · intro hfind hstat hexp
    have hl := validate_eq_sigCheck st now client sig r hfind hstat hexp
    have hd := verify_eq_sigCheck st now client sig r hfind hstat hexp
    refine ⟨?_, ?_, ?_, ?_⟩
    · intro hne
      rw [hl]
      unfold LP.sigCheck
      rw [if_pos hne]
    · intro hnone
      have hs := storeHexOk_find st client r hwf hfind
      have hne : ¬ sig = r.signature := by
        intro hcon
        rw [hcon] at hnone
        rw [hnone] at hs
        simp at hs
      rw [hl]
      unfold LP.sigCheck
      rw [if_pos hne]
    · intro heq hsome hver
      rw [hl]
      unfold LP.sigCheck
      rw [if_neg (not_not_intro heq)]
      simp only [hsome]
      rw [if_neg (by simp [hver])]
    · intro hsome hver
      rw [hd]
      unfold DJ.djSigCheck
      simp only [hsome]
      rw [if_neg (by simp [hver])]

set_option maxRecDepth 400000 in
/-- C4 witness: the no-raise theorem instantiated at a concrete store
holding one properly issued record, exercised with the undecodable
caller signature "not-hex!" (no exception, mismatch outcome in
licence.py, error status in Django) and with the stored signature of a
different payload (tampering outcome in both implementations). -/
theorem C4_witness :
    storeHexOk [("acme", (⟨"Pro", 0, some 1, rsaSignHex "x", "active"⟩ : LicenseRow))] = true ∧
    exceptOk (LP.validate_license [("acme", ⟨"Pro", 0, some 1, rsaSignHex "x", "active"⟩)]
      0 "acme" "not-hex!") = true ∧
    fromhex "not-hex!" = none ∧
    (DJ.verify_license [("acme", ⟨"Pro", 0, some 1, rsaSignHex "x", "active"⟩)]
      0 "acme" "not-hex!").status = "error" ∧
    LP.validate_license [("acme", ⟨"Pro", 0, some 1, rsaSignHex "x", "active"⟩)]
      0 "acme" "not-hex!" = Except.ok ⟨"error", "Signature mismatch."⟩ ∧
    LP.validate_license [("acme", ⟨"Pro", 0, some 1, rsaSignHex "x", "active"⟩)]
      0 "acme" (rsaSignHex "x")
      = Except.ok ⟨"error", "Invalid signature or license tampered with."⟩ ∧
    DJ.verify_license [("acme", ⟨"Pro", 0, some 1, rsaSignHex "x", "active"⟩)]
      0 "acme" (rsaSignHex "x")
      = ⟨"error", "Invalid signature or license tampered with."⟩ :=
  ⟨by rfl,
   (C4_no_raise [("acme", ⟨"Pro", 0, some 1, rsaSignHex "x", "active"⟩)] 0 "acme" "not-hex!"
     ⟨"Pro", 0, some 1, rsaSignHex "x", "active"⟩ [] (by rfl)).1,
   by rfl,
   (C4_no_raise [("acme", ⟨"Pro", 0, some 1, rsaSignHex "x", "active"⟩)] 0 "acme" "not-hex!"
     ⟨"Pro", 0, some 1, rsaSignHex "x", "active"⟩ [] (by rfl)).2.1 (by rfl),
   ((C4_no_raise [("acme", ⟨"Pro", 0, some 1, rsaSignHex "x", "active"⟩)] 0 "acme" "not-hex!"
     ⟨"Pro", 0, some 1, rsaSignHex "x", "active"⟩ [] (by rfl)).2.2 rfl (by simp)
       (by simp [isExpired])).2.1 (by rfl),
   ((C4_no_raise [("acme", ⟨"Pro", 0, some 1, rsaSignHex "x", "active"⟩)] 0 "acme"
     (rsaSignHex "x") ⟨"Pro", 0, some 1, rsaSignHex "x", "active"⟩ (rsaSignBytes "x")
       (by rfl)).2.2 rfl (by simp) (by simp [isExpired])).2.2.1 rfl (by rfl) (by rfl),
   ((C4_no_raise [("acme", ⟨"Pro", 0, some 1, rsaSignHex "x", "active"⟩)] 0 "acme"
     (rsaSignHex "x") ⟨"Pro", 0, some 1, rsaSignHex "x", "active"⟩ (rsaSignBytes "x")
       (by rfl)).2.2 rfl (by simp) (by simp [isExpired])).2.2.2 (by rfl) (by rfl)⟩

/-- C5 (amended): licence.py always stores Premium licenses with no
expiration regardless of the duration argument, and both verifiers never
report a Premium record as expired (even for an arbitrarily old
issued_at or a stored expiry in the past); the Django generate_license,
however, stores an expiry for Premium whenever an explicit exp or a
duration is supplied (see the counterexample) — it leaves expires_at
unset only when neither is given. -/
theorem C5_premium (st₁ st₂ : Store) (now dur : Int) (client₁ client₂ sig : String)
    (r : LicenseRow) (h₁ : find client₁ st₁ = none) (h₂ : find client₂ st₂ = some r)
    (hp : r.license_type = "Premium") :
    (LP.generate_license st₁ now client₁ "Premium" dur).2
      = Except.ok ⟨"Premium", now, none, LP.issueSig now client₁ "Premium" dur, "active"⟩ ∧
    (DJ.generate_license st₁ now client₁ "Premium" none none).2.exp = none ∧
    LP.validate_license st₂ now client₂ sig ≠ Except.ok ⟨"error", "License has expired."⟩ ∧
    DJ.verify_license st₂ now client₂ sig ≠ ⟨"error", "License has expired."⟩ := by
  have hcond : ¬ (r.license_type ≠ "Premium" ∧ isExpired now r.exp) := by
    simp [hp]
  refine ⟨?_, ?_, ?_, ?_⟩
  · unfold LP.generate_license LP.issueSig
    rw [h₁]
    rfl
  · unfold DJ.generate_license
    rw [h₁]
  · unfold LP.validate_license
    rw [h₂]
    show (if r.status = "revoked" then _ else _) ≠ _
    by_cases h1 : r.status = "revoked"
    · rw [if_pos h1]
      simp
    · rw [if_neg h1, if_neg hcond]
      exact sigCheck_ne_expired _ _ _
  · unfold DJ.verify_license
    rw [h₂]
    show (if r.status = "revoked" then _ else _) ≠ _
    by_cases h1 : r.status = "revoked"
    · rw [if_pos h1]
      simp
    · rw [if_neg h1, if_neg hcond]
      exact djSigCheck_ne_expired _ _

/-- C5 witness: the Premium-immunity theorem instantiated at a fresh
store and at a stored Premium record issued far in the past whose stored
expiry also lies in the past. -/
theorem C5_witness :
    find "fresh" ([] : Store) = none ∧
    find "acme" [("acme", (⟨"Premium", -999999999, some (-500), "s", "active"⟩ : LicenseRow))]
      = some ⟨"Premium", -999999999, some (-500), "s", "active"⟩ ∧
    (⟨"Premium", -999999999, some (-500), "s", "active"⟩ : LicenseRow).license_type
      = "Premium" ∧
    (LP.generate_license [] 0 "fresh" "Premium" 30).2
      = Except.ok ⟨"Premium", 0, none, LP.issueSig 0 "fresh" "Premium" 30, "active"⟩ ∧
    LP.validate_license [("acme", ⟨"Premium", -999999999, some (-500), "s", "active"⟩)]
      0 "acme" "s" ≠ Except.ok ⟨"error", "License has expired."⟩ :=
  ⟨rfl, rfl, rfl,
   (C5_premium [] [("acme", ⟨"Premium", -999999999, some (-500), "s", "active"⟩)] 0 30
     "fresh" "acme" "s" ⟨"Premium", -999999999, some (-500), "s", "active"⟩ rfl rfl rfl).1,
   (C5_premium [] [("acme", ⟨"Premium", -999999999, some (-500), "s", "active"⟩)] 0 30
     "fresh" "acme" "s" ⟨"Premium", -999999999, some (-500), "s", "active"⟩ rfl rfl rfl).2.2.1⟩

set_option maxRecDepth 200000 in
/-- C5 counterexample: the Django generate_license called for a Premium
license with an explicit expiry stores that expiry instead of leaving
expires_at unset, refuting the "regardless of any exp or duration
argument" part of the claim for that cited implementation. -/
theorem C5_counterexample :
    (DJ.generate_license [] 0 "acme" "Premium" (some 86400) none).2.license_type
      = "Premium" ∧
    (DJ.generate_license [] 0 "acme" "Premium" (some 86400) none).2.exp = some 86400 := by
  exact ⟨by rfl, by rfl⟩

/-- C6 (amended): the Django revoke_license fails with the NotFound
error (and changes nothing) for a client with no stored record, and both
implementations set the stored status to revoked when the record exists;
licence.py's revoke_license, however, reports the fixed success message
even for a missing client (see the counterexample), so the NotFound
failure holds only for the Django implementation. -/
theorem C6_revoke (st₁ st₂ : Store) (c₁ c₂ : String) (r : LicenseRow)
    (h₁ : find c₁ st₁ = none) (h₂ : find c₂ st₂ = some r) :
    DJ.revoke_license st₁ c₁ = (st₁, ⟨"error", "License not found."⟩) ∧
    find c₂ (DJ.revoke_license st₂ c₂).1 = some { r with status := "revoked" } ∧
    find c₂ (LP.revoke_license st₂ c₂).1 = some { r with status := "revoked" } := by
  refine ⟨?_, ?_, ?_⟩
  · unfold DJ.revoke_license
    rw [h₁]
  · have h : (DJ.revoke_license st₂ c₂).1
        = updateRow c₂ (fun r0 => { r0 with status := "revoked" }) st₂ := by
      unfold DJ.revoke_license
      rw [h₂]
    rw [h, find_updateRow, h₂]
    rfl
  · show find c₂ (updateRow c₂ (fun r0 => { r0 with status := "revoked" }) st₂) = _
    rw [find_updateRow, h₂]
    rfl

/-- C6 witness: the revoke theorem instantiated at a fresh store and at
a concrete one-record store. -/
theorem C6_witness :
    find "ghost" ([] : Store) = none ∧
    find "acme" [("acme", (⟨"Pro", 0, some 86400, "s", "active"⟩ : LicenseRow))]
      = some ⟨"Pro", 0, some 86400, "s", "active"⟩ ∧
    DJ.revoke_license [] "ghost" = ([], ⟨"error", "License not found."⟩) ∧
    find "acme" (LP.revoke_license [("acme", ⟨"Pro", 0, some 86400, "s", "active"⟩)] "acme").1
      = some ⟨"Pro", 0, some 86400, "s", "revoked"⟩ :=
  ⟨rfl, rfl,
   (C6_revoke [] [("acme", ⟨"Pro", 0, some 86400, "s", "active"⟩)] "ghost" "acme"
     ⟨"Pro", 0, some 86400, "s", "active"⟩ rfl rfl).1,
   (C6_revoke [] [("acme", ⟨"Pro", 0, some 86400, "s", "active"⟩)] "ghost" "acme"
     ⟨"Pro", 0, some 86400, "s", "active"⟩ rfl rfl).2.2⟩

/-- C6 counterexample: licence.py's revoke_license on a client with no
stored record still returns the "has been revoked" success message — it
does not fail with NotFound — refuting the claim as stated for that
cited implementation. -/
theorem C6_counterexample :
    find "ghost" ([] : Store) = none ∧
    LP.revoke_license [] "ghost" = ([], "License for ghost has been revoked.") :=
  ⟨rfl, rfl⟩

set_option maxRecDepth 200000 in
/-- C7 (code bug): the claim matches licence.py and the spec's table,
but the Django utils.reactivate_license compares the DateTimeField exp
value with the string "Never" (always false) and then calls
datetime.strptime on a non-string, so a stored non-Premium record with
no expiration date makes it raise TypeError instead of returning the
structured not-applicable error: here a Basic license stored with
exp unset is reactivated and the call raises. -/
theorem C7_code_bug :
    find "acme" (DJ.generate_license [] 0 "acme" "Basic" none none).1
      = some ⟨"Basic", 0, none, rsaSignHex (djLicenseJson "acme" "Basic" 0 none), "active"⟩ ∧
    (DJ.reactivate_license (DJ.generate_license [] 0 "acme" "Basic" none none).1 "acme" 10).2
      = Except.error PyExn.typeError := by
  exact ⟨by rfl, by rfl⟩

end Licensing

namespace Licensing

/-- C8 (amended): in the Django implementation the canonical encoding
shared by signing and verification (djLicenseJson) is the key-sorted,
whitespace-free compact JSON rendering of the four signable fields, with
timestamps rendered as "YYYY-MM-DD HH:MM:SS" and the non-expiring
sentinel as the literal token "Never", and any insertion order of the
four fields yields the identical encoding; licence.py, however, signs
the default json.dumps rendering, which preserves dictionary insertion
order and contains whitespace after separators (see the
counterexample) — it is deterministic only because issuance and
verification build the dictionary in the same fixed order. -/
theorem C8_canonical (c t : String) (i : Int) (e : Option Int) (l : List (String × String))
    (hperm : l.Perm (licenseFields c t i e)) :
    jsonDumpsSorted l = djLicenseJson c t i e ∧
    expString none = "Never" ∧
    fmtTime 0 = "1970-01-01 00:00:00" := by
  refine ⟨?_, rfl, by rfl⟩
  show jsonDumpsSorted l = jsonDumpsSorted (licenseFields c t i e)
  have hnd : (licenseFields c t i e).Pairwise (fun p q => p.1 ≠ q.1) := by
    simp [licenseFields]
  have hndl : l.Pairwise (fun p q => p.1 ≠ q.1) :=
    (hperm.pairwise_iff fun h => Ne.symm h).mpr hnd
  unfold jsonDumpsSorted
  rw [insertionSort_eq_of_perm l (licenseFields c t i e) hperm hndl]

/-- C8 witness: the canonical-encoding theorem instantiated at concrete
fields supplied in reversed insertion order. -/
theorem C8_witness :
    ([("exp", expString (some 0)), ("issued_at", fmtTime 0), ("license_type", "Pro"),
      ("client_id", "acme")] : List (String × String)).Perm
        (licenseFields "acme" "Pro" 0 (some 0)) ∧
    jsonDumpsSorted [("exp", expString (some 0)), ("issued_at", fmtTime 0),
      ("license_type", "Pro"), ("client_id", "acme")] = djLicenseJson "acme" "Pro" 0 (some 0) :=
  ⟨(licenseFields "acme" "Pro" 0 (some 0)).reverse_perm,
   (C8_canonical "acme" "Pro" 0 (some 0) _
     (licenseFields "acme" "Pro" 0 (some 0)).reverse_perm).1⟩

set_option maxRecDepth 200000 in
/-- C8 counterexample: the encoding licence.py signs (default
json.dumps) is not the key-sorted whitespace-free rendering: at concrete
fields it keeps insertion order and contains ", " and ": " separators,
refuting the claim as stated for that cited implementation. -/
theorem C8_counterexample :
    lpLicenseJson "a" "Pro" 0 (some 0)
      = "\x7b\"client_id\": \"a\", \"license_type\": \"Pro\", \"issued_at\": \"1970-01-01 00:00:00\", \"exp\": \"1970-01-01 00:00:00\"\x7d" ∧
    jsonDumpsSorted (licenseFields "a" "Pro" 0 (some 0))
      = "\x7b\"client_id\":\"a\",\"exp\":\"1970-01-01 00:00:00\",\"issued_at\":\"1970-01-01 00:00:00\",\"license_type\":\"Pro\"\x7d" ∧
    lpLicenseJson "a" "Pro" 0 (some 0) ≠ jsonDumpsSorted (licenseFields "a" "Pro" 0 (some 0)) := by
  have h1 : lpLicenseJson "a" "Pro" 0 (some 0)
      = "\x7b\"client_id\": \"a\", \"license_type\": \"Pro\", \"issued_at\": \"1970-01-01 00:00:00\", \"exp\": \"1970-01-01 00:00:00\"\x7d" := by
    rfl
  have h2 : jsonDumpsSorted (licenseFields "a" "Pro" 0 (some 0))
      = "\x7b\"client_id\":\"a\",\"exp\":\"1970-01-01 00:00:00\",\"issued_at\":\"1970-01-01 00:00:00\",\"license_type\":\"Pro\"\x7d" := by
    rfl
  refine ⟨h1, h2, ?_⟩
  rw [h1, h2]
  decide

/-- C9 (confirmed): a stored record with revoked status makes both
verifiers return the revoked-reason error, regardless of its expiry (in
particular one lying in the future) and before any signature checking. -/
theorem C9_revoked_precedence (st : Store) (now : Int) (client sig : String) (r : LicenseRow)
    (hfind : find client st = some r) (hrev : r.status = "revoked") :
    LP.validate_license st now client sig = Except.ok ⟨"error", "License is revoked."⟩ ∧
    DJ.verify_license st now client sig = ⟨"error", "License is revoked."⟩ := by
  constructor
  · unfold LP.validate_license
    rw [hfind]
    show (if r.status = "revoked" then _ else _) = _
    rw [if_pos hrev]
  · unfold DJ.verify_license
    rw [hfind]
    show (if r.status = "revoked" then (⟨"error", "License is revoked."⟩ : VResult)
      else if r.license_type ≠ "Premium" ∧ isExpired now r.exp then
        ⟨"error", "License has expired."⟩
      else DJ.djSigCheck (djLicenseJson client r.license_type r.issued_at r.exp) sig) = _
    rw [if_pos hrev]

/-- C9 witness: the revocation-precedence theorem instantiated at a
revoked record whose expiry lies in the future of the verification
time. -/
theorem C9_witness :
    find "acme" [("acme", (⟨"Pro", 0, some 999999, "s", "revoked"⟩ : LicenseRow))]
      = some ⟨"Pro", 0, some 999999, "s", "revoked"⟩ ∧
    (⟨"Pro", 0, some 999999, "s", "revoked"⟩ : LicenseRow).status = "revoked" ∧
    LP.validate_license [("acme", ⟨"Pro", 0, some 999999, "s", "revoked"⟩)] 0 "acme" "s"
      = Except.ok ⟨"error", "License is revoked."⟩ :=
  ⟨rfl, rfl,
   (C9_revoked_precedence [("acme", ⟨"Pro", 0, some 999999, "s", "revoked"⟩)] 0 "acme" "s"
     ⟨"Pro", 0, some 999999, "s", "revoked"⟩ rfl rfl).1⟩

/-- C10 (confirmed): for a stored non-Premium, non-revoked record whose
expiry equals the current verification time, neither verifier reports
expiry (the source comparisons `utcnow() > expiration` and
`now() > license_obj.exp` are strict) and both proceed to their
signature-checking stage. -/
theorem C10_expiry_boundary (st : Store) (now : Int) (client sig : String) (r : LicenseRow)
    (hfind : find client st = some r) (hrev : ¬ r.status = "revoked")
    (hprem : r.license_type ≠ "Premium") (he : r.exp = some now) :
    LP.validate_license st now client sig
      = LP.sigCheck (lpLicenseJson client r.license_type r.issued_at r.exp) r.signature sig ∧
    DJ.verify_license st now client sig
      = DJ.djSigCheck (djLicenseJson client r.license_type r.issued_at r.exp) sig ∧
    LP.validate_license st now client sig ≠ Except.ok ⟨"error", "License has expired."⟩ ∧
    DJ.verify_license st now client sig ≠ ⟨"error", "License has expired."⟩ := by
  have hnexp : ¬ (r.license_type ≠ "Premium" ∧ isExpired now r.exp) := by
    intro hcon
    rw [he] at hcon
    simp [isExpired] at hcon
  have h1 := validate_eq_sigCheck st now client sig r hfind hrev hnexp
  have h2 := verify_eq_sigCheck st now client sig r hfind hrev hnexp
  exact ⟨h1, h2,
    by rw [h1]; exact sigCheck_ne_expired _ _ _,
    by rw [h2]; exact djSigCheck_ne_expired _ _⟩

/-- C10 witness: the boundary theorem instantiated at a record whose
stored expiry is exactly the verification time. -/
theorem C10_witness :
    find "acme" [("acme", (⟨"Pro", 0, some 5, "s", "active"⟩ : LicenseRow))]
      = some ⟨"Pro", 0, some 5, "s", "active"⟩ ∧
    ¬ (⟨"Pro", 0, some 5, "s", "active"⟩ : LicenseRow).status = "revoked" ∧
    (⟨"Pro", 0, some 5, "s", "active"⟩ : LicenseRow).license_type ≠ "Premium" ∧
    (⟨"Pro", 0, some 5, "s", "active"⟩ : LicenseRow).exp = some 5 ∧
    LP.validate_license [("acme", ⟨"Pro", 0, some 5, "s", "active"⟩)] 5 "acme" "s"
      ≠ Except.ok ⟨"error", "License has expired."⟩ :=
  ⟨rfl, by simp, by simp, rfl,
   (C10_expiry_boundary [("acme", ⟨"Pro", 0, some 5, "s", "active"⟩)] 5 "acme" "s"
     ⟨"Pro", 0, some 5, "s", "active"⟩ rfl (by simp) (by simp) rfl).2.2.1⟩

end Licensing
